import Mathlib

/-!
Shallow embedding of the Session & Duty-Cycle Controller of the
helium-esp32-gps-tracker firmware (src/main/ttn.ino), covering the frame
counter and its rate-limited persistence (`ttn_set_cnt`, `ttn_save_counter`),
the send path (`ttn_send`), OTAA session restoration and ABP activation
(`ttn_join`), the observer registry (`ttn_register`, `_ttn_callback`),
downlink copy-out (`ttn_response`), the confirmed-every selection of
`trySendNew`, and the sleep-duration computation of `sleep()`.

Machine integers are modelled as `Nat` with an explicit `% 2 ^ 32` where
uint32 overflow matters.  Durable storage (ESP32 `Preferences`, namespace
"lora") is modelled as in-memory `Option` fields; opening the NVS handle is
abstracted as succeeding, so "performs a durable write" means the code path
reaches the corresponding `putUInt`/`putBytes` call.
-/

/-- `UINT32_MAX`, the initial value of the `static uint32_t lastWriteMsec`
local of `ttn_set_cnt` and the default passed to `Preferences::getUInt` in
the OTAA branch of `ttn_join`. -/
def UINT32_MAX : Nat := 4294967295

/-- `EV_JOINED` from the LMIC `ev_t` enumeration.  The numeric value comes
from a header outside src/; only its identity matters here. -/
def EV_JOINED : Nat := 6

/-- `EV_PENDING`: application-defined message code published by `ttn_send`
when the radio is busy ("Message discarded").  Defined in the project's
configuration header, which is outside src/; only distinctness matters. -/
def EV_PENDING : Nat := 100

/-- `EV_QUEUED`: application-defined message code published by `ttn_send`
after submitting an uplink. -/
def EV_QUEUED : Nat := 101

/-- State owned by the ttn module: the RTC-resident message counter `count`
(`static RTC_DATA_ATTR uint32_t count`), the `static uint32_t lastWriteMsec`
of `ttn_set_cnt`, and the durable NVS mirror of the "count" key. -/
structure TtnState where
  count : Nat
  lastWriteMsec : Nat
  nvsCount : Option Nat
  deriving DecidableEq

/-- The ttn module's state right after boot: `count = 0` (before
`initCount` finds no stored value) and `lastWriteMsec = UINT32_MAX`
("Ensure we write at least once"); nothing durably stored yet. -/
def ttnBoot : TtnState := { count := 0, lastWriteMsec := UINT32_MAX, nvsCount := none }

/-- Result of `ttn_set_cnt`: the new module state, the value handed to
`LMIC_setSeqnoUp`, and whether the durable `putUInt("count", count)` was
reached. -/
structure SetCntOut where
  state : TtnState
  seqnoUp : Nat
  wrote : Bool
  deriving DecidableEq

/-- `ttn_set_cnt` (ttn.ino:413-430): stamps the radio's uplink sequence
number with `count`, then mirrors `count` to flash only if the clock rolled
over (`now < lastWriteMsec`) or more than 5 minutes have passed since the
last mirror.  In the source `now - lastWriteMsec` is uint32 subtraction;
it is only reached (by short-circuit of `||`) when `now >= lastWriteMsec`,
where it coincides with `Nat` subtraction for values below `2 ^ 32`. -/
def ttn_set_cnt (s : TtnState) (now : Nat) : SetCntOut :=
  if now < s.lastWriteMsec ∨ now - s.lastWriteMsec > 5 * 60 * 1000 then
    { state := { s with lastWriteMsec := now, nvsCount := some s.count }
      seqnoUp := s.count
      wrote := true }
  else
    { state := s, seqnoUp := s.count, wrote := false }

/-- `ttn_save_counter` (ttn.ino:433-440): writes `count` to the durable
"count" key with no rate-limit check; `lastWriteMsec` (private to
`ttn_set_cnt`) is untouched.  The second component records that the
`putUInt` call is reached. -/
def ttn_save_counter (s : TtnState) : TtnState × Bool :=
  ({ s with nvsCount := some s.count }, true)

/-- Result of `ttn_send`: the new module state, the messages published via
`_ttn_callback` in order, the uplink handed to `LMIC_setTxData2` (port,
payload, confirmed) when one was submitted, the value `LMIC_setSeqnoUp`
received, and whether a durable counter write happened. -/
structure SendOut where
  state : TtnState
  events : List Nat
  submitted : Option (Nat × List Nat × Bool)
  seqnoUp : Nat
  wrote : Bool
  deriving DecidableEq

/-- `ttn_send` (ttn.ino:451-473): always runs `ttn_set_cnt` first; if a
TX/RX job is pending (`LMIC.opmode & OP_TXRXPEND`, an input owned by the
radio library, here the `txrxPend` argument) it publishes `EV_PENDING` and
returns; otherwise it submits the uplink, publishes `EV_QUEUED` and
increments the uint32 `count`. -/
def ttn_send (s : TtnState) (txrxPend : Bool) (now : Nat)
    (data : List Nat) (port : Nat) (confirmed : Bool) : SendOut :=
  let c := ttn_set_cnt s now
  if txrxPend then
    { state := c.state
      events := [EV_PENDING]
      submitted := none
      seqnoUp := c.seqnoUp
      wrote := c.wrote }
  else
    { state := { c.state with count := (c.state.count + 1) % 2 ^ 32 }
      events := [EV_QUEUED]
      submitted := some (port, data, confirmed)
      seqnoUp := c.seqnoUp
      wrote := c.wrote }

/-- One send request as seen by `ttn_send`: the radio-owned busy flag at
the time of the call, `millis()`, and the uplink parameters. -/
structure SendReq where
  txrxPend : Bool
  now : Nat
  data : List Nat
  port : Nat
  confirmed : Bool

/-- Folding a sequence of send requests through `ttn_send`. -/
def sendRun (s : TtnState) : List SendReq → TtnState
  | [] => s
  | r :: rs => sendRun (ttn_send s r.txrxPend r.now r.data r.port r.confirmed).state rs

/-- The number of requests of a sequence that arrive with the radio idle
(these are the accepted sends; the busy ones are discarded). -/
def acceptedCount (rs : List SendReq) : Nat :=
  (rs.filter fun r => !r.txrxPend).length

/-- A concrete two-request sequence: one accepted send followed by one
busy (discarded) send. -/
def twoReqs : List SendReq :=
  [{ txrxPend := false, now := 0, data := [1, 2], port := 2, confirmed := false },
   { txrxPend := true, now := 1, data := [3], port := 2, confirmed := false }]

/-- The durable "lora" Preferences namespace as `ttn_join`'s OTAA branch
reads it: the four session keys it queries, each possibly absent.  A blob
field holds the stored bytes of that key. -/
structure SessionStore where
  netId : Option Nat
  devAddr : Option Nat
  nwkKey : Option (List Nat)
  artKey : Option (List Nat)
  deriving DecidableEq

/-- Return value of ESP32 `Preferences::getBytes(key, buf, maxLen)`: 0 when
the key is absent (stored length 0) or the stored blob is larger than
`maxLen`; otherwise the stored length, with that many bytes copied out. -/
def prefsGetBytes (v : Option (List Nat)) (maxLen : Nat) : Nat :=
  match v with
  | none => 0
  | some bs => if bs.length ≤ maxLen then bs.length else 0

/-- Outcome of the OTAA branch of `ttn_join`: either `LMIC_setSession`
is called with the four restored values, or the code falls back to
`LMIC_startJoining` with no session installed. -/
inductive JoinOutcome
  | installed (netid devaddr : Nat) (nwkKey artKey : List Nat)
  | startJoin
  deriving DecidableEq

/-- The OTAA restore decision of `ttn_join` (ttn.ino:372-395): `netId` and
`devAddr` are read with default `UINT32_MAX`; `keysgood` requires both
`getBytes` calls to return exactly 16; if so the session is installed with
all four values and a synthetic `EV_JOINED` is published, else a full join
is started.  Second component: the messages published by this branch. -/
def ttn_join_otaa (st : SessionStore) : JoinOutcome × List Nat :=
  let netId := st.netId.getD UINT32_MAX
  let devAddr := st.devAddr.getD UINT32_MAX
  let keysgood := prefsGetBytes st.nwkKey 16 == 16 && prefsGetBytes st.artKey 16 == 16
  if keysgood then
    (JoinOutcome.installed netId devAddr (st.nwkKey.getD []) (st.artKey.getD []), [EV_JOINED])
  else
    (JoinOutcome.startJoin, [])

/-- A session record with both 16-byte keys present but no stored network
id or device address. -/
def keysOnlyStore : SessionStore :=
  { netId := none
    devAddr := none
    nwkKey := some (List.replicate 16 0)
    artKey := some (List.replicate 16 0) }

/-- A LoRaWAN session as `LMIC_setSession` installs it. -/
structure Session where
  netid : Nat
  devaddr : Nat
  nwkKey : List Nat
  artKey : List Nat
  deriving DecidableEq

/-- `DR_SF9`, the RX2 data rate `ttn_join` sets for ABP; numeric value from
the regional header outside src/, identity is all that matters. -/
def DR_SF9 : Nat := 3

/-- The slice of LMIC state touched by `ttn_join`'s ABP path. -/
structure LmicState where
  session : Option Session
  dn2Dr : Nat
  linkCheck : Bool
  drTx : Nat × Nat
  deriving DecidableEq

/-- `LMIC_reset`: discards the session and pending transfers, returning the
MAC to its power-up defaults. -/
def LMIC_reset (_s : LmicState) : LmicState :=
  { session := none, dn2Dr := 0, linkCheck := true, drTx := (0, 0) }

/-- The ABP path of `ttn_join` (ttn.ino:279-358, `USE_ABP`): reset the MAC,
disable link-check, set the uplink data rate (`ttn_sf(LORAWAN_SF)` calls
`LMIC_setDrTxpow(sf, 14)`), install the static session
`LMIC_setSession(0x1, DEVADDR, nwkskey, appskey)` with the keys copied from
the flash constants, set `dn2Dr := DR_SF9`, and publish a synthetic
`EV_JOINED`.  `DEVADDR`, `NWKSKEY`, `APPSKEY` and `LORAWAN_SF` live in
headers outside src/ and are taken as parameters. -/
def ttn_join_abp (DEVADDR : Nat) (NWKSKEY APPSKEY : List Nat) (LORAWAN_SF : Nat)
    (s : LmicState) : LmicState × List Nat :=
  let s1 := LMIC_reset s
  let s2 := { s1 with linkCheck := false }
  let s3 := { s2 with drTx := (LORAWAN_SF, 14) }
  let s4 := { s3 with
    session := some { netid := 1, devaddr := DEVADDR, nwkKey := NWKSKEY, artKey := APPSKEY }
    dn2Dr := DR_SF9 }
  (s4, [EV_JOINED])

/-- `ttn_register` (ttn.ino:239-241): `push_back` on the callback vector,
i.e. append at the end of the registry. -/
def ttn_register (regs : List α) (cb : α) : List α := regs ++ [cb]

/-- The registry indices touched by the first `fuel` iterations of the loop
in `_ttn_callback` (ttn.ino:71-75).  The loop variable is a `uint8_t`, so
it advances modulo 256; the list stops early as soon as the loop condition
`i < size` fails (the loop exits). -/
def callbackIters (size : Nat) : Nat → Nat → List Nat
  | 0, _ => []
  | fuel + 1, i => if i < size then i :: callbackIters size fuel ((i + 1) % 256) else []

/-- The received-downlink view of LMIC state read by `ttn_response` and
`ttn_response_len`: the frame buffer and the `dataBeg`/`dataLen` window.
`dataLen` is a `u1_t` in the library, hence at most 255. -/
structure LmicRx where
  frame : Nat → Nat
  dataBeg : Nat
  dataLen : Nat

/-- `ttn_response_len` (ttn.ino:243-245). -/
def ttn_response_len (l : LmicRx) : Nat := l.dataLen

/-- The copy loop of `ttn_response` after `n` iterations: the caller's
buffer with bytes `frame[dataBeg + i]` stored at `i` for `i < n`, paired
with the list of buffer indices written, in order. -/
def ttn_response_loop (l : LmicRx) (buffer : Nat → Nat) : Nat → (Nat → Nat) × List Nat
  | 0 => (buffer, [])
  | n + 1 =>
    let p := ttn_response_loop l buffer n
    (Function.update p.1 n (l.frame (l.dataBeg + n)), p.2 ++ [n])

/-- `ttn_response` (ttn.ino:247-251): copies exactly `LMIC.dataLen` bytes
of the downlink into the caller's buffer.  The `len` parameter is accepted,
as in the source signature, and never read by the body. -/
def ttn_response (l : LmicRx) (buffer : Nat → Nat) (len : Nat) : (Nat → Nat) × List Nat :=
  ttn_response_loop l buffer l.dataLen

/-- A concrete downlink: 3 bytes at `dataBeg = 5` of the identity frame. -/
def rx3 : LmicRx := { frame := fun i => i, dataBeg := 5, dataLen := 3 }

/-- The confirmed-delivery selection of `trySendNew` (ttn.ino:559-576):
when `LORAWAN_CONFIRMED_EVERY > 0`, confirmed iff the current counter value
`ttn_get_count()` — read before `ttn_send` increments it — is divisible by
`LORAWAN_CONFIRMED_EVERY`; otherwise never confirmed. -/
def trySendNew_confirmed (count LORAWAN_CONFIRMED_EVERY : Nat) : Bool :=
  if 0 < LORAWAN_CONFIRMED_EVERY then count % LORAWAN_CONFIRMED_EVERY == 0 else false

/-- `k` consecutive `trySendNew` evaluations, every one accepted (radio
idle each time), collecting each send's confirmed flag in order.  Payload,
port and clock are irrelevant to the flag and held fixed. -/
def trySendRun (payload : List Nat) (port now n : Nat) (s : TtnState) : Nat → List Bool
  | 0 => []
  | k + 1 =>
    let confirmed := trySendNew_confirmed s.count n
    let r := ttn_send s false now payload port confirmed
    confirmed :: trySendRun payload port now n r.state k

/-- The sleep-duration computation of `sleep()` (ttn.ino:612-638):
`sleep_for = (millis() < SEND_INTERVAL) ? SEND_INTERVAL - millis() : SEND_INTERVAL`,
with one observation of `millis()` written `now`. -/
def sleep_for (now SEND_INTERVAL : Nat) : Nat :=
  if now < SEND_INTERVAL then SEND_INTERVAL - now else SEND_INTERVAL

/-- The spec's sleep formula, stated for comparison with `sleep_for`:
`base_interval - (now mod base_interval)` clamped to be nonnegative (`Nat`
subtraction already clamps at 0). -/
def specSleepFor (now base_interval : Nat) : Nat := base_interval - now % base_interval

/-- A module state whose uint32 counter sits at the wrap boundary. -/
def wrapState : TtnState := { count := 2 ^ 32 - 1, lastWriteMsec := 0, nvsCount := none }

theorem ttn_set_cnt_count (s : TtnState) (now : Nat) :
    (ttn_set_cnt s now).state.count = s.count := by
  unfold ttn_set_cnt; split <;> rfl

theorem ttn_set_cnt_wrote_iff (s : TtnState) (now : Nat) :
    (ttn_set_cnt s now).wrote = true ↔
      now < s.lastWriteMsec ∨ now - s.lastWriteMsec > 5 * 60 * 1000 := by
  unfold ttn_set_cnt; split <;> simp_all

theorem ttn_set_cnt_lastWrite_of_wrote (s : TtnState) (now : Nat)
    (h : (ttn_set_cnt s now).wrote = true) :
    (ttn_set_cnt s now).state.lastWriteMsec = now := by
  by_cases hc : now < s.lastWriteMsec ∨ now - s.lastWriteMsec > 5 * 60 * 1000
  · simp [ttn_set_cnt, hc]
  · simp [ttn_set_cnt, hc] at h

theorem ttn_send_busy_count (s : TtnState) (now : Nat) (d : List Nat) (pt : Nat) (cf : Bool) :
    (ttn_send s true now d pt cf).state.count = s.count := by
  simp [ttn_send, ttn_set_cnt_count]

theorem ttn_send_accepted_count (s : TtnState) (now : Nat) (d : List Nat) (pt : Nat)
    (cf : Bool) : (ttn_send s false now d pt cf).state.count = (s.count + 1) % 2 ^ 32 := by
  simp [ttn_send, ttn_set_cnt_count]

theorem sendRun_count (s : TtnState) (rs : List SendReq) (h : s.count < 2 ^ 32) :
    (sendRun s rs).count = (s.count + acceptedCount rs) % 2 ^ 32 := by
  induction rs generalizing s with
  | nil =>
    simp only [sendRun, acceptedCount, List.filter_nil, List.length_nil]
    omega
  | cons r rs ih =>
    cases hp : r.txrxPend with
    | true =>
      have hc : (ttn_send s r.txrxPend r.now r.data r.port r.confirmed).state.count
          = s.count := by rw [hp]; exact ttn_send_busy_count ..
      rw [sendRun, ih _ (by rw [hc]; exact h), hc]
      simp [acceptedCount, List.filter_cons, hp]
    | false =>
      have hc : (ttn_send s r.txrxPend r.now r.data r.port r.confirmed).state.count
          = (s.count + 1) % 2 ^ 32 := by rw [hp]; exact ttn_send_accepted_count ..
      rw [sendRun, ih _ (by rw [hc]; omega), hc]
      simp only [acceptedCount, List.filter_cons, hp, Bool.not_false, if_pos,
        List.length_cons]
      omega

/-- C1: on a busy send the in-memory frame counter is unchanged; on an
accepted send it is incremented by exactly 1 modulo `2 ^ 32` (the uint32
`count++` wraps at the boundary); over any sequence of send requests the
final counter equals the initial counter plus the number of accepted sends,
modulo `2 ^ 32`, and is therefore non-decreasing whenever no uint32 wrap
occurs along the sequence. -/
theorem sendRun_count_increment (s : TtnState) (now : Nat) (d : List Nat) (pt : Nat)
    (cf : Bool) (rs : List SendReq) (h : s.count < 2 ^ 32) :
    (ttn_send s true now d pt cf).state.count = s.count ∧
    (ttn_send s false now d pt cf).state.count = (s.count + 1) % 2 ^ 32 ∧
    (sendRun s rs).count = (s.count + acceptedCount rs) % 2 ^ 32 ∧
    (s.count + acceptedCount rs < 2 ^ 32 → s.count ≤ (sendRun s rs).count) := by
  refine ⟨ttn_send_busy_count .., ttn_send_accepted_count .., sendRun_count s rs h, ?_⟩
  intro hlt
  rw [sendRun_count s rs h]
  omega

/-- C1 witness: the characterization instantiated at the boot state and a
concrete accepted-then-busy request sequence. -/
theorem sendRun_count_increment_instance :
    (ttn_send ttnBoot true 0 [1, 2] 2 false).state.count = ttnBoot.count ∧
    (ttn_send ttnBoot false 0 [1, 2] 2 false).state.count = (ttnBoot.count + 1) % 2 ^ 32 ∧
    (sendRun ttnBoot twoReqs).count = (ttnBoot.count + acceptedCount twoReqs) % 2 ^ 32 ∧
    (ttnBoot.count + acceptedCount twoReqs < 2 ^ 32 →
      ttnBoot.count ≤ (sendRun ttnBoot twoReqs).count) :=
  sendRun_count_increment ttnBoot 0 [1, 2] 2 false twoReqs (by decide)

/-- C1 counterexample: at counter value `2 ^ 32 - 1` an accepted send wraps
the uint32 counter to 0: the counter strictly decreases, so it is neither
non-decreasing nor incremented by exactly 1 at this input. -/
theorem ttn_send_count_wrap_decreases :
    (ttn_send wrapState false 0 [] 2 false).state.count = 0 ∧
    (ttn_send wrapState false 0 [] 2 false).state.count < wrapState.count := by
  constructor <;> decide

/-- C2: during a send the durable counter write happens exactly when the
clock rolled over (`now < lastWriteMsec`) or more than 5 minutes passed
since the last durable write; `ttn_save_counter` reaches its durable write
unconditionally, with no rate-limit check; and once a rate-limited write
has happened at `now`, a later call at `now2 ≥ now` writes again exactly
when more than 5 minutes have elapsed — at most one rate-limited write per
5-minute window of the running clock. -/
theorem counter_persist_rate_limit (s : TtnState) (pend : Bool) (now now2 : Nat)
    (d : List Nat) (pt : Nat) (cf : Bool) :
    ((ttn_send s pend now d pt cf).wrote = true ↔
      now < s.lastWriteMsec ∨ now - s.lastWriteMsec > 5 * 60 * 1000) ∧
    ((ttn_save_counter s).2 = true ∧ (ttn_save_counter s).1.nvsCount = some s.count) ∧
    ((ttn_set_cnt s now).wrote = true → now ≤ now2 →
      ((ttn_set_cnt (ttn_set_cnt s now).state now2).wrote = true ↔
        now2 - now > 5 * 60 * 1000)) := by
  refine ⟨?_, ⟨rfl, rfl⟩, ?_⟩
  · have hw : (ttn_send s pend now d pt cf).wrote = (ttn_set_cnt s now).wrote := by
      unfold ttn_send; cases pend <;> rfl
    rw [hw, ttn_set_cnt_wrote_iff]
  · intro hwr hle
    rw [ttn_set_cnt_wrote_iff, ttn_set_cnt_lastWrite_of_wrote s now hwr]
    omega

/-- C3: when a prior TX/RX operation is outstanding, `ttn_send` publishes
exactly the `EV_PENDING` (MessageDiscarded) message, leaves the frame
counter unchanged, hands nothing to `LMIC_setTxData2`, and the next
idle-radio call proceeds as a fresh send of its own payload, with the
counter incremented only then — no queued retry of the discarded frame. -/
theorem ttn_send_busy_discard (s : TtnState) (now now2 : Nat) (d d2 : List Nat)
    (pt pt2 : Nat) (cf cf2 : Bool) :
    (ttn_send s true now d pt cf).events = [EV_PENDING] ∧
    (ttn_send s true now d pt cf).state.count = s.count ∧
    (ttn_send s true now d pt cf).submitted = none ∧
    (ttn_send (ttn_send s true now d pt cf).state false now2 d2 pt2 cf2).submitted =
      some (pt2, d2, cf2) ∧
    (ttn_send (ttn_send s true now d pt cf).state false now2 d2 pt2 cf2).state.count =
      (s.count + 1) % 2 ^ 32 := by
  refine ⟨?_, ttn_send_busy_count .., ?_, ?_, ?_⟩
  · unfold ttn_send; rfl
  · unfold ttn_send; rfl
  · unfold ttn_send; rfl
  · rw [ttn_send_accepted_count, ttn_send_busy_count]

/-- C4 (amended): the OTAA restore path of `ttn_join` falls back to a full
join exactly when one of the two 16-byte session keys is absent or does not
hold exactly 16 stored bytes; when both keys are good, a complete session —
never a partial one — is installed in one `LMIC_setSession` call, with a
missing network id or device address silently defaulting to `UINT32_MAX`
rather than forcing a fresh join. -/
theorem ttn_join_otaa_restore_decision (st : SessionStore) :
    ((ttn_join_otaa st).1 = JoinOutcome.startJoin ↔
      ¬(prefsGetBytes st.nwkKey 16 = 16 ∧ prefsGetBytes st.artKey 16 = 16)) ∧
    (∀ nk ak, st.nwkKey = some nk → nk.length = 16 → st.artKey = some ak →
      ak.length = 16 →
      ttn_join_otaa st = (JoinOutcome.installed (st.netId.getD UINT32_MAX)
        (st.devAddr.getD UINT32_MAX) nk ak, [EV_JOINED])) := by
  have hsplit : ∀ _ : (prefsGetBytes st.nwkKey 16 == 16 &&
        prefsGetBytes st.artKey 16 == 16) = true,
      ttn_join_otaa st = (JoinOutcome.installed (st.netId.getD UINT32_MAX)
        (st.devAddr.getD UINT32_MAX) (st.nwkKey.getD []) (st.artKey.getD []),
        [EV_JOINED]) := by
    intro hk
    simp only [ttn_join_otaa]
    rw [if_pos hk]
  constructor
  · by_cases hk : (prefsGetBytes st.nwkKey 16 == 16 &&
        prefsGetBytes st.artKey 16 == 16) = true
    · rw [hsplit hk]
      simp only [Bool.and_eq_true, beq_iff_eq] at hk
      simp [hk.1, hk.2]
    · simp only [ttn_join_otaa]
      rw [if_neg hk]
      simp only [Bool.and_eq_true, beq_iff_eq] at hk
      simp [hk]
  · intro nk ak hnk hlnk hak hlak
    have hk : (prefsGetBytes st.nwkKey 16 == 16 &&
        prefsGetBytes st.artKey 16 == 16) = true := by
      simp [hnk, hak, prefsGetBytes, hlnk, hlak]
    rw [hsplit hk, hnk, hak]
    simp

/-- C4 counterexample: a stored record with no network id and no device
address but both 16-byte session keys present does NOT produce "no
session": `ttn_join` installs a session, with `UINT32_MAX` standing in for
the two missing fields. -/
theorem ttn_join_otaa_installs_without_netid :
    (ttn_join_otaa keysOnlyStore).1 =
      JoinOutcome.installed UINT32_MAX UINT32_MAX (List.replicate 16 0)
        (List.replicate 16 0) ∧
    (ttn_join_otaa keysOnlyStore).1 ≠ JoinOutcome.startJoin := by
  constructor <;> decide

/-- C5 (amended): with a positive confirmed-every value `n`, the (j+1)-st
send of a run of consecutive accepted `trySendNew` evaluations is confirmed
exactly when the pre-increment counter value it reads, `initial count + j`,
is divisible by `n` — the flag comes from `ttn_get_count()` before
`ttn_send` increments the counter. -/
theorem trySendNew_confirmed_periodic (payload : List Nat) (port now n : Nat)
    (s : TtnState) (k j : Nat) (hn : 0 < n) (hj : j < k) (hw : s.count + k ≤ 2 ^ 32) :
    ((trySendRun payload port now n s k).getD j false = true ↔ (s.count + j) % n = 0) := by
  induction k generalizing s j with
  | zero => omega
  | succ k ih =>
    cases j with
    | zero =>
      simp only [trySendRun, List.getD_cons_zero, Nat.add_zero]
      simp [trySendNew_confirmed, hn]
    | succ j =>
      have hcount : (ttn_send s false now payload port
          (trySendNew_confirmed s.count n)).state.count = s.count + 1 := by
        rw [ttn_send_accepted_count]; omega
      simp only [trySendRun, List.getD_cons_succ]
      rw [ih _ j (by omega) (by rw [hcount]; omega), hcount]
      have harith : s.count + 1 + j = s.count + (j + 1) := by omega
      rw [harith]

/-- C5 witness: confirmed-every 10, fifteen accepted sends from boot: the
run's send at index 10 (the eleventh) is confirmed iff `10 % 10 = 0`. -/
theorem trySendNew_confirmed_periodic_instance :
    ((trySendRun [] 2 0 10 ttnBoot 15).getD 10 false = true ↔
      (ttnBoot.count + 10) % 10 = 0) :=
  trySendNew_confirmed_periodic [] 2 0 10 ttnBoot 15 10 (by decide) (by decide) (by decide)

/-- C5 counterexample: with confirmed-every 10 and fifteen consecutive
accepted sends from a fresh boot (counter 0), the confirmed flags, in send
order, mark sends 1 and 11 — send number 10 is NOT confirmed, so the
selection is not evaluated against the post-increment counter value. -/
theorem trySendRun_fifteen_flags :
    trySendRun [] 2 0 10 ttnBoot 15 =
      [true, false, false, false, false, false, false, false, false, false,
       true, false, false, false, false] := by
  decide

/-- C6 (amended): the computed sleep duration agrees with the absolute-grid
formula `SEND_INTERVAL - (now mod SEND_INTERVAL)` while `now` is still
inside the first interval, and is the full `SEND_INTERVAL` otherwise — past
the first interval no grid alignment takes place. -/
theorem sleep_for_alignment (now si : Nat) :
    (now < si → sleep_for now si = specSleepFor now si) ∧
    (si ≤ now → sleep_for now si = si) := by
  constructor
  · intro h
    simp [sleep_for, specSleepFor, h, Nat.mod_eq_of_lt h]
  · intro h
    simp [sleep_for, Nat.not_lt.mpr h]

/-- C6 counterexample: at `now = 15` with `SEND_INTERVAL = 10` the code
sleeps the full 10 ms while the grid formula demands 5 ms, so the claimed
equality fails at this value of `now`. -/
theorem sleep_for_not_grid_aligned :
    sleep_for 15 10 = 10 ∧ specSleepFor 15 10 = 5 ∧
    sleep_for 15 10 ≠ specSleepFor 15 10 := by
  refine ⟨rfl, rfl, by decide⟩

/-- C7: ABP activation is idempotent — a second `ttn_join` leaves exactly
the LMIC state the first produced (same device address and session keys,
no drift), each call installs the static session
`(0x1, DEVADDR, NWKSKEY, APPSKEY)`, and each call publishes the synthesized
Joined event exactly once. -/
theorem ttn_join_abp_idempotent (D sf : Nat) (N A : List Nat) (s : LmicState) :
    (ttn_join_abp D N A sf ((ttn_join_abp D N A sf s).1)).1 =
      (ttn_join_abp D N A sf s).1 ∧
    (ttn_join_abp D N A sf s).1.session =
      some { netid := 1, devaddr := D, nwkKey := N, artKey := A } ∧
    (ttn_join_abp D N A sf s).2.count EV_JOINED = 1 ∧
    (ttn_join_abp D N A sf ((ttn_join_abp D N A sf s).1)).2.count EV_JOINED = 1 := by
  refine ⟨rfl, rfl, ?_, ?_⟩ <;>
    · show List.count EV_JOINED [EV_JOINED] = 1
      decide

theorem callbackIters_exits (size fuel i : Nat) (hsize : size ≤ 255)
    (hfuel : size - i ≤ fuel) : callbackIters size fuel i = List.range' i (size - i) := by
  induction fuel generalizing i with
  | zero =>
    have h0 : size - i = 0 := by omega
    rw [h0]
    rfl
  | succ fuel ih =>
    by_cases h : i < size
    · have hm : (i + 1) % 256 = i + 1 := Nat.mod_eq_of_lt (by omega)
      rw [callbackIters, if_pos h, hm, ih (i + 1) (by omega)]
      have hs : size - i = (size - (i + 1)) + 1 := by omega
      rw [hs, List.range'_succ]
    · have h0 : size - i = 0 := by omega
      rw [callbackIters, if_neg h, h0]
      rfl

theorem map_getD_range (l : List α) (d : α) :
    (List.range l.length).map (fun i => l.getD i d) = l := by
  induction l with
  | nil => rfl
  | cons a l ih =>
    rw [List.length_cons, List.range_succ_eq_map, List.map_cons, List.map_map]
    have hcomp : ((fun i => (a :: l).getD i d) ∘ Nat.succ) = fun i => l.getD i d := by
      funext i
      simp [List.getD_cons_succ]
    rw [List.getD_cons_zero, hcomp, ih]

/-- C8 (amended): `ttn_register` appends the observer at the end of the
registry, and — provided at most 255 observers are registered — the loop of
`_ttn_callback` runs to completion in exactly `length` iterations, touching
indices 0, 1, …, length−1 in order, so a publish invokes every registered
observer exactly once, synchronously, in subscription order. -/
theorem ttn_callback_in_order_once (α : Type) (regs : List α) (cb d : α) (fuel : Nat)
    (hsize : regs.length ≤ 255) (hfuel : regs.length ≤ fuel) :
    ttn_register regs cb = regs ++ [cb] ∧
    callbackIters regs.length fuel 0 = List.range regs.length ∧
    (callbackIters regs.length fuel 0).map (fun i => regs.getD i d) = regs := by
  have h1 : callbackIters regs.length fuel 0 = List.range regs.length := by
    rw [callbackIters_exits regs.length fuel 0 hsize (by omega), Nat.sub_zero,
      List.range_eq_range']
  exact ⟨rfl, h1, by rw [h1, map_getD_range]⟩

/-- C8 witness: a two-observer registry is completely and exactly once
invoked, in order, within two loop iterations. -/
theorem ttn_callback_in_order_once_instance :
    ttn_register [10, 20] 30 = [10, 20] ++ [30] ∧
    callbackIters ([10, 20] : List Nat).length 2 0 =
      List.range ([10, 20] : List Nat).length ∧
    (callbackIters ([10, 20] : List Nat).length 2 0).map
      (fun i => ([10, 20] : List Nat).getD i 0) = [10, 20] :=
  ttn_callback_in_order_once Nat [10, 20] 30 0 2 (by decide) (by decide)

set_option maxRecDepth 8192 in
/-- C8 counterexample: with 256 registered observers the `uint8_t` loop
index of `_ttn_callback` wraps: within the first 257 loop iterations the
observer at index 0 is invoked twice, and the loop condition has not failed
once in those iterations — a publish does not invoke every registered
observer exactly once. -/
theorem ttn_callback_wraps_at_256 :
    (callbackIters 256 257 0).count 0 = 2 ∧ (callbackIters 256 257 0).length = 257 := by
  constructor <;> decide

theorem ttn_response_loop_apply (l : LmicRx) (b : Nat → Nat) (n j : Nat) :
    (ttn_response_loop l b n).1 j = if j < n then l.frame (l.dataBeg + j) else b j := by
  induction n with
  | zero => simp [ttn_response_loop]
  | succ n ih =>
    simp only [ttn_response_loop]
    rw [Function.update_apply, ih]
    split_ifs <;> first | rfl | omega | simp_all

theorem ttn_response_loop_writes (l : LmicRx) (b : Nat → Nat) (n : Nat) :
    (ttn_response_loop l b n).2 = List.range n := by
  induction n with
  | zero => rfl
  | succ n ih =>
    simp only [ttn_response_loop]
    rw [ih, List.range_succ]

/-- C9: `ttn_response` ignores its `len` parameter — the outcome is the
same for any two values of it — and copies exactly `LMIC.dataLen` bytes:
the written prefix equals the downlink payload `frame[dataBeg + i]`,
indices at and beyond `dataLen` keep the caller's bytes, the buffer indices
written are exactly 0, …, dataLen−1, and whenever the caller's buffer is
shorter than `dataLen` the written index `dataLen − 1` lies at or beyond
the buffer's end — an out-of-bounds write.  `LMIC.dataLen` is a `u1_t`,
whence the hypothesis `dataLen ≤ 255` under which the source's uint8 copy
loop runs exactly `dataLen` iterations. -/
theorem ttn_response_copies_dataLen (l : LmicRx) (buffer : Nat → Nat)
    (len1 len2 j bufLen : Nat) (hdl : l.dataLen ≤ 255) :
    (ttn_response l buffer len1 = ttn_response l buffer len2) ∧
    (j < l.dataLen → (ttn_response l buffer len1).1 j = l.frame (l.dataBeg + j)) ∧
    (l.dataLen ≤ j → (ttn_response l buffer len1).1 j = buffer j) ∧
    ((ttn_response l buffer len1).2 = List.range l.dataLen) ∧
    (bufLen < l.dataLen →
      bufLen ≤ l.dataLen - 1 ∧ (l.dataLen - 1) ∈ (ttn_response l buffer len1).2) := by
  refine ⟨rfl, ?_, ?_, ttn_response_loop_writes .., ?_⟩
  · intro h
    rw [ttn_response, ttn_response_loop_apply, if_pos h]
  · intro h
    rw [ttn_response, ttn_response_loop_apply, if_neg (by omega)]
  · intro h
    refine ⟨by omega, ?_⟩
    rw [ttn_response, ttn_response_loop_writes]
    exact List.mem_range.mpr (by omega)

/-- C9 witness: a 3-byte downlink at offset 5 of the identity frame, with
two different values of the ignored `len` argument. -/
theorem ttn_response_copies_dataLen_instance :
    (ttn_response rx3 (fun _ => 0) 4 = ttn_response rx3 (fun _ => 0) 9) ∧
    (1 < rx3.dataLen → (ttn_response rx3 (fun _ => 0) 4).1 1 = rx3.frame (rx3.dataBeg + 1)) ∧
    (rx3.dataLen ≤ 1 → (ttn_response rx3 (fun _ => 0) 4).1 1 = 0) ∧
    ((ttn_response rx3 (fun _ => 0) 4).2 = List.range rx3.dataLen) ∧
    (2 < rx3.dataLen →
      2 ≤ rx3.dataLen - 1 ∧ (rx3.dataLen - 1) ∈ (ttn_response rx3 (fun _ => 0) 4).2) :=
  ttn_response_copies_dataLen rx3 (fun _ => 0) 4 9 1 2 (by decide)

/-- C10 (amended): at boot `lastWriteMsec` is `UINT32_MAX`, so on the first
send `ttn_set_cnt` takes the clock-rollover branch `now < lastWriteMsec`
and performs the durable write for every clock value except
`now = UINT32_MAX` itself. -/
theorem first_send_always_persists (s : TtnState) (now : Nat)
    (hboot : s.lastWriteMsec = UINT32_MAX) (hnow : now < UINT32_MAX) :
    (ttn_set_cnt s now).wrote = true ∧
    (ttn_set_cnt s now).state.nvsCount = some s.count := by
  have hc : now < s.lastWriteMsec ∨ now - s.lastWriteMsec > 5 * 60 * 1000 := by
    left
    rw [hboot]
    exact hnow
  unfold ttn_set_cnt
  rw [if_pos hc]
  exact ⟨rfl, rfl⟩

/-- C10 witness: the boot state with the first send at `millis() = 0`. -/
theorem first_send_always_persists_instance :
    (ttn_set_cnt ttnBoot 0).wrote = true ∧
    (ttn_set_cnt ttnBoot 0).state.nvsCount = some ttnBoot.count :=
  first_send_always_persists ttnBoot 0 rfl (by decide)

/-- C10 counterexample: a first send at `millis() = UINT32_MAX` exactly
finds `now = lastWriteMsec`, neither the rollover branch nor the 5-minute
branch fires, and no durable write happens — the first-send write is not
unconditional. -/
theorem first_send_no_persist_at_max_millis :
    (ttn_set_cnt ttnBoot UINT32_MAX).wrote = false ∧
    (ttn_set_cnt ttnBoot UINT32_MAX).state.nvsCount = none := by
  constructor <;> decide
